import Mathlib

/-!
Verification of the MyFoodBot subscription / nutrition-ledger subsystem.

The definitions below are a shallow embedding of the Python sources:
  src/subscription_db.py  (class SubscriptionDB)
  src/user_manager.py     (class UserManager)
Timestamps are modelled as integers (seconds); `datetime.isoformat` round
trips are the identity, and the SQL BETWEEN comparison on ISO strings is
the corresponding integer comparison.  SQLite tables are lists of rows in
rowid (insertion) order; `SELECT ... LIMIT 1` without ORDER BY is the first
matching element of the list; `REAL` columns are modelled as integers since
no claim depends on fractional values.
-/

/-- Seconds in one day (timedelta(days=1)). -/
def dayS : Int := 86400

/-- Seconds in one hour (timedelta(hours=1)). -/
def hourS : Int := 3600

/-- Embedding of now.replace(hour=0, minute=0, second=0, microsecond=0):
the midnight that starts the calendar day containing the instant. -/
def midnight (now : Int) : Int := now - now % dayS

/-- One row of the subscriptions table (user_id is the primary key). -/
structure SubRow where
  user_id : Int
  start_date : Int
  end_date : Int
  created_at : Int
  updated_at : Int
deriving Repr, DecidableEq

/-- SELECT ... FROM subscriptions WHERE user_id = ? (primary-key lookup,
modelled as the first matching row). -/
def find_sub (subs : List SubRow) (uid : Int) : Option SubRow :=
  subs.find? (fun r => r.user_id == uid)

/-- Embedding of SubscriptionDB.add_subscription (subscription_db.py,
lines 277-342): if a row exists and is still active, the new end_date stacks
on the old one; if it exists but is expired the window restarts at now; if
no row exists a fresh row is inserted.  timedelta(days=30*months) is
30 * months * dayS seconds. -/
def add_subscription (subs : List SubRow) (user_id months now : Int) : List SubRow :=
  match find_sub subs user_id with
  | some existing =>
      let end_date :=
        if now < existing.end_date then existing.end_date + 30 * months * dayS
        else now + 30 * months * dayS
      subs.map (fun r =>
        if r.user_id == user_id then { r with end_date := end_date, updated_at := now } else r)
  | none =>
      subs ++ [{ user_id := user_id, start_date := now, end_date := now + 30 * months * dayS,
                 created_at := now, updated_at := now }]

/-- Embedding of SubscriptionDB.revoke_subscription (subscription_db.py,
lines 406-434).  The DELETE is unconditional and the function returns True
unless an exception occurred; the storageFail flag models the except
branch, which returns False and leaves the table unchanged. -/
def revoke_subscription (storageFail : Bool) (subs : List SubRow) (uid : Int) :
    List SubRow × Bool :=
  if storageFail then (subs, false)
  else (subs.filter (fun r => !(r.user_id == uid)), true)

/-! Helper lemmas about find? over the list operations used by the store. -/

theorem find?_map_preserving (f : SubRow → SubRow) (uid : Int)
    (h : ∀ r, (f r).user_id = r.user_id) (subs : List SubRow) :
    (subs.map f).find? (fun r => r.user_id == uid) =
      (subs.find? (fun r => r.user_id == uid)).map f := by
  induction subs with
  | nil => rfl
  | cons a l ih =>
      simp only [List.map_cons, List.find?_cons]
      have hc : ((f a).user_id == uid) = (a.user_id == uid) := by rw [h a]
      rw [hc]
      cases hcase : (a.user_id == uid) with
      | true => rfl
      | false => simpa using ih

theorem find?_append_of_none {α : Type} (p : α → Bool) (l1 l2 : List α)
    (h : l1.find? p = none) : (l1 ++ l2).find? p = l2.find? p := by
  induction l1 with
  | nil => rfl
  | cons a l ih =>
      rw [List.find?_cons] at h
      simp only [List.cons_append, List.find?_cons]
      cases hp : p a with
      | true => rw [hp] at h; simp at h
      | false => rw [hp] at h; exact ih h

/-- C1: upsertSubscription (add_subscription) obeys the three-case rule:
no row inserts start=now, end=now+30*months days; an active row stacks
new_end = old_end + 30*months days; an expired row restarts
new_end = now + 30*months days. -/
theorem C1_upsert_three_cases (subs : List SubRow) (uid months now : Int)
    (hm : 1 ≤ months) :
    (find_sub subs uid = none →
      find_sub (add_subscription subs uid months now) uid =
        some { user_id := uid, start_date := now, end_date := now + 30 * months * dayS,
               created_at := now, updated_at := now }) ∧
    (∀ r, find_sub subs uid = some r → now < r.end_date →
      (find_sub (add_subscription subs uid months now) uid).map SubRow.end_date =
        some (r.end_date + 30 * months * dayS)) ∧
    (∀ r, find_sub subs uid = some r → r.end_date ≤ now →
      (find_sub (add_subscription subs uid months now) uid).map SubRow.end_date =
        some (now + 30 * months * dayS)) := by
  refine ⟨?_, ?_, ?_⟩
  · intro hnone
    unfold add_subscription
    rw [hnone]
    unfold find_sub at hnone ⊢
    rw [find?_append_of_none _ _ _ hnone]
    simp [List.find?_cons]
  · intro r hr hact
    unfold add_subscription
    rw [hr]
    unfold find_sub at hr ⊢
    rw [find?_map_preserving]
    · rw [hr]
      have huid : r.user_id = uid := by simpa using List.find?_some hr
      simp [if_pos hact, huid]
    · intro x
      by_cases hx : (x.user_id == uid) = true
      · simp [hx]
      · simp [hx]
  · intro r hr hexp
    unfold add_subscription
    rw [hr]
    unfold find_sub at hr ⊢
    rw [find?_map_preserving]
    · rw [hr]
      have hnl : ¬ now < r.end_date := not_lt.mpr hexp
      have huid : r.user_id = uid := by simpa using List.find?_some hr
      simp [if_neg hnl, huid]
    · intro x
      by_cases hx : (x.user_id == uid) = true
      · simp [hx]
      · simp [hx]

theorem C1_upsert_three_cases_witness :
    (1 : Int) ≤ 1 ∧
    find_sub (add_subscription [] 7 1 0) 7 =
      some { user_id := 7, start_date := 0, end_date := 30 * 1 * dayS,
             created_at := 0, updated_at := 0 } :=
  ⟨by decide, by
    have h := (C1_upsert_three_cases [] 7 1 0 (by decide)).1 (by rfl)
    simpa using h⟩

/-- C7 counterexample: for a user with no subscription row, the code
returns True (the claim says the return value should be false when no row
existed). -/
theorem C7_counterexample :
    find_sub [] 7 = none ∧ (revoke_subscription false [] 7).2 = true := by
  constructor
  · rfl
  · rfl

/-- C7 amended: revoke_subscription deletes the row unconditionally, but
returns true whenever the storage operation succeeds, regardless of
whether a row existed; it returns false (leaving the table unchanged) only
on a storage error. -/
theorem C7_revoke_unconditional (subs : List SubRow) (uid : Int) :
    find_sub (revoke_subscription false subs uid).1 uid = none ∧
    (revoke_subscription false subs uid).2 = true ∧
    (∀ r ∈ subs, r.user_id ≠ uid → r ∈ (revoke_subscription false subs uid).1) ∧
    revoke_subscription true subs uid = (subs, false) := by
  refine ⟨?_, rfl, ?_, rfl⟩
  · unfold revoke_subscription find_sub
    simp only [if_neg (Bool.false_ne_true)]
    rw [List.find?_eq_none]
    intro r hr
    have := List.of_mem_filter hr
    simpa using this
  · intro r hr hne
    unfold revoke_subscription
    simp only [if_neg (Bool.false_ne_true)]
    apply List.mem_filter_of_mem hr
    simpa using hne

/-- Result dictionary of SubscriptionDB.get_subscription_status
(subscription_db.py, lines 344-404), restricted to the keys shared by the
no-row and error branches plus the two date fields present on success. -/
structure SubStatus where
  has_subscription : Bool
  start_date : Option Int
  end_date : Option Int
  days_left : Int
  is_active : Bool
deriving Repr, DecidableEq

/-- The dictionary returned both when no row exists and from the except
branch of get_subscription_status. -/
def no_sub_status : SubStatus :=
  { has_subscription := false, start_date := none, end_date := none,
    days_left := 0, is_active := false }

/-- end_date > now, the activity predicate of get_subscription_status. -/
def sub_is_active (r : SubRow) (now : Int) : Bool := decide (now < r.end_date)

/-- max(0, (end_date - now).days): the whole-day countdown reported by
get_subscription_status.  Python timedelta .days floors; under max 0 the
floor and the Int division agree for every input. -/
def days_left_of (r : SubRow) (now : Int) : Int := max 0 ((r.end_date - now) / dayS)

/-- Embedding of SubscriptionDB.get_subscription_status.  The storageFail
flag models the except branch, which returns the same dictionary as the
no-row branch. -/
def get_subscription_status (storageFail : Bool) (subs : List SubRow) (uid now : Int) :
    SubStatus :=
  if storageFail then no_sub_status
  else
    match find_sub subs uid with
    | none => no_sub_status
    | some r =>
        { has_subscription := true
          start_date := some r.start_date
          end_date := some r.end_date
          days_left := days_left_of r now
          is_active := sub_is_active r now }

/-- Reason strings returned by UserManager.can_use_claude. -/
inductive Reason where
  | subscription
  | free_trial
  | no_access
deriving Repr, DecidableEq

/-- Result dictionary of UserManager.can_use_claude. -/
structure Decision where
  can_use : Bool
  reason : Reason
  remaining_trials : Option Int
  subscription_expires : Option Int
deriving Repr, DecidableEq

/-- The trial-related fields of a users.json profile
(UserManager.get_user creates them with free_trials_used = 0 and
max_free_trials = 2). -/
structure UserProfile where
  free_trials_used : Int
  max_free_trials : Int
deriving Repr, DecidableEq

/-- Embedding of UserManager.can_use_claude (user_manager.py, lines
52-83): the subscription status is consulted first; only then are free
trials considered. -/
def can_use_claude (user : UserProfile) (status : SubStatus) : Decision :=
  if status.has_subscription && status.is_active then
    { can_use := true, reason := .subscription, remaining_trials := none,
      subscription_expires := status.end_date }
  else
    let remaining := user.max_free_trials - user.free_trials_used
    if 0 < remaining then
      { can_use := true, reason := .free_trial, remaining_trials := some remaining,
        subscription_expires := none }
    else
      { can_use := false, reason := .no_access, remaining_trials := some 0,
        subscription_expires := none }

theorem is_active_imp_has_sub (subs : List SubRow) (uid now : Int)
    (h : (get_subscription_status false subs uid now).is_active = true) :
    (get_subscription_status false subs uid now).has_subscription = true := by
  unfold get_subscription_status at h ⊢
  cases hf : find_sub subs uid with
  | none => rw [hf] at h; simp [no_sub_status] at h
  | some r => rfl

/-- C2: can_use_claude checks the subscription first and answers
subscription whenever the store reports an active subscription; a user
with no subscription row and trialsUsed < 2 gets a free trial with
remainingTrials = 2 - trialsUsed; a user with trialsUsed == 2 and no
active subscription gets no_access. -/
theorem C2_can_use_claude_cases (user : UserProfile) (subs : List SubRow) (uid now : Int)
    (hmax : user.max_free_trials = 2) :
    ((get_subscription_status false subs uid now).is_active = true →
      can_use_claude user (get_subscription_status false subs uid now) =
        { can_use := true, reason := .subscription, remaining_trials := none,
          subscription_expires := (get_subscription_status false subs uid now).end_date }) ∧
    (find_sub subs uid = none → user.free_trials_used < 2 →
      can_use_claude user (get_subscription_status false subs uid now) =
        { can_use := true, reason := .free_trial,
          remaining_trials := some (2 - user.free_trials_used),
          subscription_expires := none }) ∧
    (user.free_trials_used = 2 →
      (get_subscription_status false subs uid now).is_active = false →
      can_use_claude user (get_subscription_status false subs uid now) =
        { can_use := false, reason := .no_access, remaining_trials := some 0,
          subscription_expires := none }) := by
  refine ⟨?_, ?_, ?_⟩
  · intro hact
    have hhas := is_active_imp_has_sub subs uid now hact
    unfold can_use_claude
    rw [hhas, hact]
    rfl
  · intro hnone htr
    have hst : get_subscription_status false subs uid now = no_sub_status := by
      unfold get_subscription_status
      rw [hnone]
      rfl
    rw [hst]
    unfold can_use_claude
    have hrem : 0 < user.max_free_trials - user.free_trials_used := by
      rw [hmax]; omega
    simp only [no_sub_status, Bool.false_and, Bool.false_eq_true, if_false, if_pos hrem]
    rw [hmax]
  · intro hused hact
    unfold can_use_claude
    rw [hact]
    have hrem : ¬ 0 < user.max_free_trials - user.free_trials_used := by
      rw [hmax, hused]; omega
    simp only [Bool.and_false, Bool.false_eq_true, if_false, if_neg hrem]

theorem C2_can_use_claude_cases_witness :
    ({ free_trials_used := 0, max_free_trials := 2 } : UserProfile).max_free_trials = 2 ∧
    find_sub [] 7 = none ∧
    (0 : Int) < 2 ∧
    can_use_claude { free_trials_used := 0, max_free_trials := 2 }
        (get_subscription_status false [] 7 0) =
      { can_use := true, reason := .free_trial, remaining_trials := some 2,
        subscription_expires := none } :=
  ⟨rfl, rfl, by decide, by
    have h := (C2_can_use_claude_cases { free_trials_used := 0, max_free_trials := 2 }
      [] 7 0 rfl).2.1 rfl (by decide)
    simpa using h⟩

/-- Aggregate counts of the admin subscription statistics. -/
structure SubStats where
  total_subscriptions : Nat
  active_subscriptions : Nat
  expired_subscriptions : Nat
  expiring_soon : Nat
deriving Repr, DecidableEq

/-- Modelled from the spec: the method get_subscription_stats is invoked by
cmd_admin_stats (src/bot.py line 990), by cleanup_expired_subscriptions
(src/subscription_cleanup.py line 37) and by src/migrate_subscriptions.py,
but its definition is absent from src/subscription_db.py.  Following the
spec wording — aggregate counts: total, active (isActive), expired, and
expiring within 7 days (0 < daysLeft <= 7) — it is modelled as one
counting pass over the subscriptions table, reusing the activity and
days-left functions of get_subscription_status.  This is the per-row
counting step of that pass. -/
def stats_step (now : Int) (s : SubStats) (r : SubRow) : SubStats :=
  { total_subscriptions := s.total_subscriptions + 1
    active_subscriptions :=
      s.active_subscriptions + (if sub_is_active r now then 1 else 0)
    expired_subscriptions :=
      s.expired_subscriptions + (if sub_is_active r now then 0 else 1)
    expiring_soon :=
      s.expiring_soon +
        (if 0 < days_left_of r now ∧ days_left_of r now ≤ 7 then 1 else 0) }

/-- Modelled from the spec: stats() — aggregate counts over the whole
subscriptions table, absent from src/subscription_db.py (see stats_step). -/
def get_subscription_stats (subs : List SubRow) (now : Int) : SubStats :=
  subs.foldl (stats_step now)
    { total_subscriptions := 0, active_subscriptions := 0,
      expired_subscriptions := 0, expiring_soon := 0 }

theorem length_filter_add_length_filter_not {α : Type} (p : α → Bool) (l : List α) :
    (l.filter p).length + (l.filter (fun a => !(p a))).length = l.length := by
  induction l with
  | nil => rfl
  | cons a t ih =>
      by_cases hp : p a = true
      · simp [List.filter_cons, hp, Nat.succ_add]
        omega
      · have hp' : p a = false := by simpa using hp
        simp [List.filter_cons, hp']
        omega

theorem stats_foldl_spec (now : Int) (subs : List SubRow) (s : SubStats) :
    subs.foldl (stats_step now) s =
      { total_subscriptions := s.total_subscriptions + subs.length
        active_subscriptions :=
          s.active_subscriptions + (subs.filter (fun r => sub_is_active r now)).length
        expired_subscriptions :=
          s.expired_subscriptions + (subs.filter (fun r => !(sub_is_active r now))).length
        expiring_soon :=
          s.expiring_soon + (subs.filter (fun r =>
            decide (0 < days_left_of r now) && decide (days_left_of r now ≤ 7))).length } := by
  induction subs generalizing s with
  | nil => simp
  | cons a t ih =>
      rw [List.foldl_cons, ih]
      simp only [stats_step, List.filter_cons, List.length_cons, SubStats.mk.injEq]
      refine ⟨by omega, ?_, ?_, ?_⟩
      · cases ha : sub_is_active a now <;> simp [ha] <;> omega
      · cases ha : sub_is_active a now <;> simp [ha] <;> omega
      · by_cases he : 0 < days_left_of a now ∧ days_left_of a now ≤ 7
        · simp only [if_pos he]
          have hd : (decide (0 < days_left_of a now) &&
              decide (days_left_of a now ≤ 7)) = true := by
            simp [he.1, he.2]
          simp [hd]
          omega
        · simp only [if_neg he]
          have hd : (decide (0 < days_left_of a now) &&
              decide (days_left_of a now ≤ 7)) = false := by
            by_cases h1 : 0 < days_left_of a now
            · have h2 : ¬ days_left_of a now ≤ 7 := fun h2 => he ⟨h1, h2⟩
              simp [h2]
            · simp [h1]
          simp [hd]

/-- C8: the stats operation returns, for every database state, the
aggregate counts: total subscriptions, active subscriptions
(end_date > now), expired subscriptions, and the count of subscriptions
expiring within 7 days (0 < daysLeft <= 7); active and expired partition
the total. -/
theorem C8_subscription_stats (subs : List SubRow) (now : Int) :
    (get_subscription_stats subs now).total_subscriptions = subs.length ∧
    (get_subscription_stats subs now).active_subscriptions =
      (subs.filter (fun r => sub_is_active r now)).length ∧
    (get_subscription_stats subs now).expired_subscriptions =
      (subs.filter (fun r => !(sub_is_active r now))).length ∧
    (get_subscription_stats subs now).active_subscriptions +
        (get_subscription_stats subs now).expired_subscriptions =
      (get_subscription_stats subs now).total_subscriptions ∧
    (get_subscription_stats subs now).expiring_soon =
      (subs.filter (fun r =>
        decide (0 < days_left_of r now) && decide (days_left_of r now ≤ 7))).length := by
  unfold get_subscription_stats
  rw [stats_foldl_spec]
  refine ⟨by simp, by simp, by simp, ?_, by simp⟩
  simp only [Nat.zero_add]
  exact length_filter_add_length_filter_not (fun r => sub_is_active r now) subs

/-- C10: on any internal error get_subscription_status returns exactly the
no-row dictionary, so can_use_claude cannot distinguish a storage failure
from the absence of a subscription, and a paying user whose trials are
exhausted is silently downgraded from a subscription decision to
no_access. -/
theorem C10_storage_error_downgrade (user : UserProfile) (subs subs2 : List SubRow)
    (uid now : Int) (r : SubRow)
    (hnone : find_sub subs2 uid = none)
    (hrow : find_sub subs uid = some r)
    (hact : now < r.end_date)
    (hused : user.max_free_trials ≤ user.free_trials_used) :
    get_subscription_status true subs uid now = no_sub_status ∧
    get_subscription_status false subs2 uid now = no_sub_status ∧
    can_use_claude user (get_subscription_status true subs uid now) =
      can_use_claude user (get_subscription_status false subs2 uid now) ∧
    (can_use_claude user (get_subscription_status false subs uid now)).reason =
      Reason.subscription ∧
    (can_use_claude user (get_subscription_status true subs uid now)).reason =
      Reason.no_access := by
  have h1 : get_subscription_status true subs uid now = no_sub_status := rfl
  have h2 : get_subscription_status false subs2 uid now = no_sub_status := by
    unfold get_subscription_status
    rw [hnone]
    rfl
  refine ⟨h1, h2, by rw [h1, h2], ?_, ?_⟩
  · have hst : get_subscription_status false subs uid now =
        { has_subscription := true, start_date := some r.start_date,
          end_date := some r.end_date, days_left := days_left_of r now,
          is_active := sub_is_active r now } := by
      unfold get_subscription_status
      rw [hrow]
      rfl
    rw [hst]
    unfold can_use_claude
    have hb : sub_is_active r now = true := by
      unfold sub_is_active
      simpa using hact
    simp [hb]
  · rw [h1]
    unfold can_use_claude
    have hrem : ¬ 0 < user.max_free_trials - user.free_trials_used := by omega
    simp only [no_sub_status, Bool.false_and, Bool.false_eq_true, if_false, if_neg hrem]

theorem C10_storage_error_downgrade_witness :
    find_sub [] 7 = none ∧
    find_sub [{ user_id := 7, start_date := 0, end_date := 100,
                created_at := 0, updated_at := 0 }] 7 =
      some { user_id := 7, start_date := 0, end_date := 100,
             created_at := 0, updated_at := 0 } ∧
    (50 : Int) < 100 ∧
    (2 : Int) ≤ 2 ∧
    (can_use_claude { free_trials_used := 2, max_free_trials := 2 }
        (get_subscription_status true
          [{ user_id := 7, start_date := 0, end_date := 100,
             created_at := 0, updated_at := 0 }] 7 50)).reason = Reason.no_access :=
  ⟨rfl, rfl, by decide, by decide,
    (C10_storage_error_downgrade { free_trials_used := 2, max_free_trials := 2 }
      [{ user_id := 7, start_date := 0, end_date := 100,
         created_at := 0, updated_at := 0 }] [] 7 50
      { user_id := 7, start_date := 0, end_date := 100,
        created_at := 0, updated_at := 0 }
      rfl rfl (by decide) (by decide)).2.2.2.2⟩

/-- One row of the food_analyses table (id is the AUTOINCREMENT primary
key; the numeric REAL columns are modelled as integers). -/
structure FoodRow where
  id : Nat
  user_id : Int
  analysis_text : String
  dish_name : String
  dish_weight : Int
  calories : Int
  protein : Int
  fat : Int
  carbs : Int
  water_ml : Int
  created_at : Int
deriving Repr, DecidableEq

/-- The WHERE clause shared by get_user_daily_stats and
update_user_water: user match and created_at BETWEEN today_start AND
today_end (SQL BETWEEN is inclusive at both ends, with
today_end = today_start + 1 day). -/
def today_row (uid now : Int) (r : FoodRow) : Bool :=
  r.user_id == uid && decide (midnight now ≤ r.created_at) &&
    decide (r.created_at ≤ midnight now + dayS)

/-- The dish condition of the aggregation loop in get_user_daily_stats:
dish_name != "Вода" and calories > 0. -/
def counted_dish (r : FoodRow) : Bool :=
  r.dish_name != "Вода" && decide (0 < r.calories)

/-- The aggregate dictionary returned by get_user_daily_stats. -/
structure DailyStats where
  dishes_count : Nat
  total_calories : Int
  total_protein : Int
  total_fat : Int
  total_carbs : Int
  water_ml : Int
deriving Repr, DecidableEq

/-- One iteration of the aggregation loop of get_user_daily_stats: a
counted dish contributes to the count and the four nutrient sums; every row
contributes its water_ml. -/
def daily_step (s : DailyStats) (r : FoodRow) : DailyStats :=
  if counted_dish r then
    { dishes_count := s.dishes_count + 1
      total_calories := s.total_calories + r.calories
      total_protein := s.total_protein + r.protein
      total_fat := s.total_fat + r.fat
      total_carbs := s.total_carbs + r.carbs
      water_ml := s.water_ml + r.water_ml }
  else
    { s with water_ml := s.water_ml + r.water_ml }

/-- Embedding of SubscriptionDB.get_user_daily_stats (subscription_db.py,
lines 700-765): select the rows of the user within the calendar day of
now, return None when there are none, otherwise the aggregates. -/
def get_user_daily_stats (table : List FoodRow) (uid now : Int) : Option DailyStats :=
  let records := table.filter (today_row uid now)
  if records.isEmpty then none
  else some (records.foldl daily_step
    { dishes_count := 0, total_calories := 0, total_protein := 0,
      total_fat := 0, total_carbs := 0, water_ml := 0 })

/-- Embedding of SubscriptionDB.add_water (subscription_db.py, lines
547-579): always inserts a fresh water-only row. -/
def add_water (table : List FoodRow) (freshId : Nat) (uid water_ml now : Int) :
    List FoodRow :=
  table ++ [{ id := freshId, user_id := uid, analysis_text := "Вода",
              dish_name := "Вода", dish_weight := 0, calories := 0, protein := 0,
              fat := 0, carbs := 0, water_ml := water_ml, created_at := now }]

/-- Embedding of SubscriptionDB.update_user_water (subscription_db.py,
lines 767-826): fetch one row of the user within today (SELECT ... LIMIT 1
without ORDER BY, i.e. the first in rowid order); if found, UPDATE sets
water_ml of the row with that id to the fetched value plus the argument;
otherwise INSERT a new water row (empty analysis_text, dish name "Вода")
with the given fresh id. -/
def update_user_water (table : List FoodRow) (freshId : Nat) (uid water_ml now : Int) :
    List FoodRow :=
  match table.find? (today_row uid now) with
  | some existing =>
      table.map (fun r =>
        if r.id == existing.id then { r with water_ml := existing.water_ml + water_ml }
        else r)
  | none =>
      table ++ [{ id := freshId, user_id := uid, analysis_text := "",
                  dish_name := "Вода", dish_weight := 0, calories := 0, protein := 0,
                  fat := 0, carbs := 0, water_ml := water_ml, created_at := now }]

theorem midnight_le (now : Int) : midnight now ≤ now := by
  unfold midnight dayS
  have := Int.emod_nonneg now (by norm_num : (86400 : Int) ≠ 0)
  omega

theorem lt_midnight_add_day (now : Int) : now < midnight now + dayS := by
  unfold midnight dayS
  have := Int.emod_lt_of_pos now (by norm_num : (0 : Int) < 86400)
  omega

theorem daily_foldl_spec (l : List FoodRow) (s : DailyStats) :
    l.foldl daily_step s =
      { dishes_count := s.dishes_count + (l.filter counted_dish).length
        total_calories :=
          s.total_calories + ((l.filter counted_dish).map FoodRow.calories).sum
        total_protein :=
          s.total_protein + ((l.filter counted_dish).map FoodRow.protein).sum
        total_fat := s.total_fat + ((l.filter counted_dish).map FoodRow.fat).sum
        total_carbs := s.total_carbs + ((l.filter counted_dish).map FoodRow.carbs).sum
        water_ml := s.water_ml + (l.map FoodRow.water_ml).sum } := by
  induction l generalizing s with
  | nil => simp
  | cons a t ih =>
      rw [List.foldl_cons, ih]
      simp only [daily_step, List.filter_cons, List.map_cons, List.length_cons,
        List.sum_cons, DailyStats.mk.injEq]
      cases hc : counted_dish a
      · simp [hc]
        omega
      · simp [hc]
        refine ⟨by omega, by omega, by omega, by omega, by omega⟩

/-- C3: dailyStats scans the rows of the user whose created_at lies in
the half-open calendar-day window; it returns None exactly when there are
no such rows, and otherwise counts as dishes exactly the non-water rows
with positive calories, sums the four nutrient totals over exactly those rows, and
sums water_ml over all rows of the window.  The hypothesis states that
every stored row was created no later than now, which makes the closed
BETWEEN bound and the half-open window agree. -/
theorem C3_daily_stats (table : List FoodRow) (uid now : Int)
    (hpast : ∀ r ∈ table, r.created_at ≤ now) :
    (get_user_daily_stats table uid now = none ↔
      table.filter (fun r => r.user_id == uid &&
        decide (midnight now ≤ r.created_at) &&
        decide (r.created_at < midnight now + dayS)) = []) ∧
    (∀ W, W = table.filter (fun r => r.user_id == uid &&
        decide (midnight now ≤ r.created_at) &&
        decide (r.created_at < midnight now + dayS)) → W ≠ [] →
      get_user_daily_stats table uid now = some
        { dishes_count := (W.filter counted_dish).length
          total_calories := ((W.filter counted_dish).map FoodRow.calories).sum
          total_protein := ((W.filter counted_dish).map FoodRow.protein).sum
          total_fat := ((W.filter counted_dish).map FoodRow.fat).sum
          total_carbs := ((W.filter counted_dish).map FoodRow.carbs).sum
          water_ml := (W.map FoodRow.water_ml).sum }) := by
  have hfilter : table.filter (today_row uid now) =
      table.filter (fun r => r.user_id == uid &&
        decide (midnight now ≤ r.created_at) &&
        decide (r.created_at < midnight now + dayS)) := by
    apply List.filter_congr
    intro r hr
    unfold today_row
    have hle : r.created_at ≤ now := hpast r hr
    have hlt : now < midnight now + dayS := lt_midnight_add_day now
    have h1 : decide (r.created_at ≤ midnight now + dayS) = true := by
      simp
      omega
    have h2 : decide (r.created_at < midnight now + dayS) = true := by
      simp
      omega
    rw [h1, h2]
  constructor
  · unfold get_user_daily_stats
    rw [hfilter]
    by_cases hW : table.filter (fun r => r.user_id == uid &&
        decide (midnight now ≤ r.created_at) &&
        decide (r.created_at < midnight now + dayS)) = []
    · simp [hW]
    · have : (table.filter (fun r => r.user_id == uid &&
          decide (midnight now ≤ r.created_at) &&
          decide (r.created_at < midnight now + dayS))).isEmpty = false := by
        rw [List.isEmpty_eq_false_iff_exists_mem]
        rcases List.exists_mem_of_ne_nil _ hW with ⟨x, hx⟩
        exact ⟨x, hx⟩
      simp [this, hW]
  · intro W hW hne
    unfold get_user_daily_stats
    rw [hfilter, ← hW]
    have hni : W.isEmpty = false := by
      rw [List.isEmpty_eq_false_iff_exists_mem]
      rcases List.exists_mem_of_ne_nil _ hne with ⟨x, hx⟩
      exact ⟨x, hx⟩
    simp only [hni, Bool.false_eq_true, if_false]
    rw [daily_foldl_spec]
    simp

theorem C3_daily_stats_witness :
    (∀ r ∈ [({ id := 1, user_id := 7, analysis_text := "x", dish_name := "Суп",
               dish_weight := 300, calories := 300, protein := 10, fat := 5,
               carbs := 20, water_ml := 0, created_at := 500 } : FoodRow)],
        r.created_at ≤ (1000 : Int)) ∧
    get_user_daily_stats
        [{ id := 1, user_id := 7, analysis_text := "x", dish_name := "Суп",
           dish_weight := 300, calories := 300, protein := 10, fat := 5,
           carbs := 20, water_ml := 0, created_at := 500 }] 7 1000 =
      some { dishes_count := 1, total_calories := 300, total_protein := 10,
             total_fat := 5, total_carbs := 20, water_ml := 0 } := by
  constructor
  · intro r hr
    simp at hr
    rw [hr]
    decide
  · have h := (C3_daily_stats
      [{ id := 1, user_id := 7, analysis_text := "x", dish_name := "Суп",
         dish_weight := 300, calories := 300, protein := 10, fat := 5,
         carbs := 20, water_ml := 0, created_at := 500 }] 7 1000
      (by intro r hr; simp at hr; rw [hr]; decide)).2
      _ rfl (by decide)
    rw [h]
    decide

theorem update_user_water_found (table : List FoodRow) (nid : Nat)
    (uid w now : Int) (r0 : FoodRow)
    (h : table.find? (today_row uid now) = some r0) :
    update_user_water table nid uid w now =
      table.map (fun r =>
        if r.id == r0.id then { r with water_ml := r0.water_ml + w } else r) := by
  unfold update_user_water
  rw [h]

theorem update_user_water_not_found (table : List FoodRow) (nid : Nat)
    (uid w now : Int)
    (h : table.find? (today_row uid now) = none) :
    update_user_water table nid uid w now =
      table ++ [{ id := nid, user_id := uid, analysis_text := "",
                  dish_name := "Вода", dish_weight := 0, calories := 0, protein := 0,
                  fat := 0, carbs := 0, water_ml := w, created_at := now }] := by
  unfold update_user_water
  rw [h]

theorem map_eq_self_of {α : Type} (f : α → α) (l : List α)
    (h : ∀ a ∈ l, f a = a) : l.map f = l := by
  induction l with
  | nil => rfl
  | cons a t ih =>
      rw [List.map_cons, h a (by simp), ih (fun x hx => h x (by simp [hx]))]

/-- C4: starting from a table with no today rows for the user, adding 100
then 150 ml of water on the same calendar day leaves exactly one today row
for that user, holding 250 ml, and the daily stats report 250 ml: the
second call updates the row inserted by the first instead of inserting a
duplicate. -/
theorem C4_water_accumulates_in_one_row (table : List FoodRow) (uid : Int)
    (nid1 nid2 : Nat) (now1 now2 : Int)
    (hsame : midnight now2 = midnight now1)
    (hfresh : ∀ r ∈ table, r.id ≠ nid1)
    (hnotoday : ∀ r ∈ table, r.user_id = uid →
      ¬ (midnight now1 ≤ r.created_at ∧ r.created_at ≤ midnight now1 + dayS)) :
    (update_user_water (update_user_water table nid1 uid 100 now1) nid2 uid 150
        now2).filter (today_row uid now2) =
      [{ id := nid1, user_id := uid, analysis_text := "", dish_name := "Вода",
         dish_weight := 0, calories := 0, protein := 0, fat := 0, carbs := 0,
         water_ml := 250, created_at := now1 }] ∧
    (get_user_daily_stats
        (update_user_water (update_user_water table nid1 uid 100 now1) nid2 uid 150 now2)
        uid now2).map DailyStats.water_ml = some 250 := by
  have htr : ∀ now', midnight now' = midnight now1 →
      ∀ r ∈ table, today_row uid now' r = false := by
    intro now' hmid r hr
    unfold today_row
    rw [hmid]
    by_cases hu : r.user_id = uid
    · have hnw := hnotoday r hr hu
      cases hc1 : decide (midnight now1 ≤ r.created_at) with
      | false => simp [hc1]
      | true =>
          have h1 : midnight now1 ≤ r.created_at := of_decide_eq_true hc1
          have h2 : ¬ r.created_at ≤ midnight now1 + dayS := fun h2 => hnw ⟨h1, h2⟩
          simp [h2]
    · simp [hu]
  have hnone1 : table.find? (today_row uid now1) = none := by
    rw [List.find?_eq_none]
    intro r hr
    simp [htr now1 rfl r hr]
  have hT1 : update_user_water table nid1 uid 100 now1 =
      table ++ [{ id := nid1, user_id := uid, analysis_text := "",
                  dish_name := "Вода", dish_weight := 0, calories := 0, protein := 0,
                  fat := 0, carbs := 0, water_ml := 100, created_at := now1 }] :=
    update_user_water_not_found table nid1 uid 100 now1 hnone1
  set w1 : FoodRow :=
    { id := nid1, user_id := uid, analysis_text := "", dish_name := "Вода",
      dish_weight := 0, calories := 0, protein := 0, fat := 0, carbs := 0,
      water_ml := 100, created_at := now1 } with hw1
  have hw1today : today_row uid now2 w1 = true := by
    unfold today_row
    rw [hsame, hw1]
    have h1 : midnight now1 ≤ now1 := midnight_le now1
    have h2 : now1 ≤ midnight now1 + dayS := le_of_lt (lt_midnight_add_day now1)
    simp [h1, h2]
  have hfind2 : (update_user_water table nid1 uid 100 now1).find? (today_row uid now2) =
      some w1 := by
    rw [hT1]
    rw [find?_append_of_none]
    · rw [List.find?_cons]
      rw [hw1today]
    · rw [List.find?_eq_none]
      intro r hr
      simp [htr now2 hsame r hr]
  have hT2 : update_user_water (update_user_water table nid1 uid 100 now1) nid2 uid 150
      now2 = table ++ [{ w1 with water_ml := 250 }] := by
    rw [update_user_water_found _ nid2 uid 150 now2 w1 hfind2, hT1, List.map_append]
    have hmap1 : table.map (fun r =>
        if r.id == w1.id then { r with water_ml := w1.water_ml + 150 } else r) = table := by
      apply map_eq_self_of
      intro a ha
      have hb : (a.id == w1.id) = false := by
        simp [hw1]
        exact hfresh a ha
      rw [hb]
      rfl
    rw [hmap1]
    have : (w1.id == w1.id) = true := by simp
    simp only [List.map_cons, List.map_nil, this, if_pos]
    rfl
  have hw1t' : today_row uid now2 ({ w1 with water_ml := 250 } : FoodRow) = true := by
    unfold today_row at hw1today ⊢
    simpa using hw1today
  constructor
  · rw [hT2, List.filter_append]
    have hft : table.filter (today_row uid now2) = [] := by
      rw [List.filter_eq_nil_iff]
      intro r hr
      simp [htr now2 hsame r hr]
    rw [hft]
    simp only [List.nil_append, List.filter_cons, hw1t', if_pos, List.filter_nil]
  · unfold get_user_daily_stats
    rw [hT2, List.filter_append]
    have hft : table.filter (today_row uid now2) = [] := by
      rw [List.filter_eq_nil_iff]
      intro r hr
      simp [htr now2 hsame r hr]
    rw [hft]
    simp only [List.nil_append, List.filter_cons, hw1t', if_pos, List.filter_nil]
    have hcd : counted_dish ({ w1 with water_ml := 250 } : FoodRow) = false := by
      unfold counted_dish
      rw [hw1]
      simp
    simp [daily_step, hcd]

theorem C4_water_accumulates_in_one_row_witness :
    midnight 3000 = midnight 2000 ∧
    (∀ r ∈ ([] : List FoodRow), r.id ≠ 1) ∧
    (∀ r ∈ ([] : List FoodRow), r.user_id = 7 →
      ¬ (midnight 2000 ≤ r.created_at ∧ r.created_at ≤ midnight 2000 + dayS)) ∧
    (get_user_daily_stats
        (update_user_water (update_user_water [] 1 7 100 2000) 2 7 150 3000)
        7 3000).map DailyStats.water_ml = some 250 :=
  ⟨by decide, by intro r hr; simp at hr, by intro r hr; simp at hr,
    (C4_water_accumulates_in_one_row [] 7 1 2 2000 3000 (by decide)
      (by intro r hr; simp at hr) (by intro r hr; simp at hr)).2⟩

/-- Two today rows of user 7 used to refute the most-recent-row wording of
the water-update invariant. -/
def c5_row1 : FoodRow :=
  { id := 1, user_id := 7, analysis_text := "t", dish_name := "Суп",
    dish_weight := 300, calories := 300, protein := 10, fat := 5, carbs := 20,
    water_ml := 0, created_at := 10 }

/-- The later-created (most recent) of the two rows. -/
def c5_row2 : FoodRow :=
  { id := 2, user_id := 7, analysis_text := "t", dish_name := "Каша",
    dish_weight := 250, calories := 250, protein := 9, fat := 4, carbs := 18,
    water_ml := 0, created_at := 20 }

/-- C5 counterexample: with two today rows for the user, update_user_water
increments the water of the FIRST row in rowid order (the earlier one) and
leaves the most-recent today row untouched, contradicting the claim that
the most-recent today row is incremented. -/
theorem C5_counterexample :
    c5_row1.created_at < c5_row2.created_at ∧
    today_row 7 50000 c5_row1 = true ∧
    today_row 7 50000 c5_row2 = true ∧
    update_user_water [c5_row1, c5_row2] 3 7 100 50000 =
      [{ c5_row1 with water_ml := 100 }, c5_row2] ∧
    ¬ update_user_water [c5_row1, c5_row2] 3 7 100 50000 =
      [c5_row1, { c5_row2 with water_ml := 100 }] := by
  refine ⟨by decide, by decide, by decide, ?_, ?_⟩
  · decide
  · decide

/-- C5 amended: the single add-water update path, when a same-day row for
the user exists, increments the water_ml of the first matching today row
in rowid order (not necessarily the most recent) in place rather than
inserting a duplicate: the table keeps its length, the updated row keeps
every other field, and every row with a different id is unchanged. -/
theorem C5_update_first_today_row (table : List FoodRow) (nid : Nat)
    (uid w now : Int) (r0 : FoodRow)
    (hfind : table.find? (today_row uid now) = some r0) :
    (update_user_water table nid uid w now).length = table.length ∧
    { r0 with water_ml := r0.water_ml + w } ∈ update_user_water table nid uid w now ∧
    (∀ r ∈ table, r.id ≠ r0.id → r ∈ update_user_water table nid uid w now) := by
  unfold update_user_water
  rw [hfind]
  refine ⟨List.length_map _ _, ?_, ?_⟩
  · have hr0 : r0 ∈ table := List.mem_of_find?_eq_some hfind
    have : ({ r0 with water_ml := r0.water_ml + w } : FoodRow) =
        (fun r => if r.id == r0.id then { r with water_ml := r0.water_ml + w } else r) r0 := by
      simp
    rw [this]
    exact List.mem_map_of_mem _ hr0
  · intro r hr hne
    have : (fun x => if x.id == r0.id then { x with water_ml := r0.water_ml + w } else x) r
        = r := by
      have hb : (r.id == r0.id) = false := by simpa using hne
      simp [hb]
    rw [← this]
    exact List.mem_map_of_mem _ hr

theorem C5_update_first_today_row_witness :
    [c5_row1, c5_row2].find? (today_row 7 50000) = some c5_row1 ∧
    ({ c5_row1 with water_ml := c5_row1.water_ml + 100 } ∈
      update_user_water [c5_row1, c5_row2] 3 7 100 50000) :=
  ⟨by decide,
    (C5_update_first_today_row [c5_row1, c5_row2] 3 7 100 50000 c5_row1
      (by decide)).2.1⟩

/-- Outcome of a single attempt inside the retry loop: success, an
OperationalError whose text contains "database is locked", or any other
exception. -/
inductive DbOutcome (α : Type) where
  | ok (a : α)
  | locked
  | failure
deriving Repr, DecidableEq

/-- How the retry loop terminates: success, the locked error re-raised on
the last attempt, a non-locked error re-raised immediately, or the
while-else message "database is locked after all retries". -/
inductive RetryResult (α : Type) where
  | ok (a : α)
  | lockedRaised
  | failureRaised
  | exhaustedMessage
deriving Repr, DecidableEq

/-- Embedding of the retry loop shared by SubscriptionDB._get_connection
(subscription_db.py, lines 20-82) and SubscriptionDB._execute_with_retry
(lines 84-116): max_retries = 3; while retry_count < max_retries, one
attempt is made; on a locked error with retry_count < max_retries - 1 the
counter is incremented and the loop sleeps (2 ** retry_count) * 0.1
seconds before retrying, otherwise the error is re-raised; any other
error is re-raised at once.  The first component records the sleeps in
tenths of a second; fuel = max_retries - retry_count keeps the recursion
structural; the fuel-exhausted branch is the while-else raise, which is
unreachable because every iteration breaks, continues after incrementing
the counter, or raises. -/
def retry_loop {α : Type} (attempt : Nat → DbOutcome α) :
    Nat → Nat → List Nat × RetryResult α
  | 0, _ => ([], .exhaustedMessage)
  | fuel + 1, rc =>
    match attempt rc with
    | .ok a => ([], .ok a)
    | .failure => ([], .failureRaised)
    | .locked =>
        if rc < 3 - 1 then
          let p := retry_loop attempt fuel (rc + 1)
          (2 ^ (rc + 1) :: p.1, p.2)
        else ([], .lockedRaised)

/-- The whole retry wrapper: three units of fuel, counter starting at 0. -/
def execute_with_retry {α : Type} (attempt : Nat → DbOutcome α) :
    List Nat × RetryResult α :=
  retry_loop attempt 3 0

/-- C6 counterexample: against a permanently locked database the loop
sleeps 0.2 s and 0.4 s only — the claimed third retry with its 0.8 s delay
never happens — and then re-raises the locked error after the third failed
attempt. -/
theorem C6_counterexample :
    execute_with_retry (fun _ => (DbOutcome.locked : DbOutcome Unit)) =
      ([2, 4], RetryResult.lockedRaised) ∧
    ([2, 4] : List Nat) ≠ [2, 4, 8] := by
  constructor
  · rfl
  · decide

/-- C6 amended: the loop makes at most 3 attempts in total, i.e. it
retries a locked error at most twice, sleeping 0.2 s before the second
attempt and 0.4 s before the third (in tenths: 2 and 4); a locked error on
the third attempt is re-raised with no further delay; any non-locked error
propagates immediately without retry. -/
theorem C6_retry_behaviour {α : Type} (attempt : Nat → DbOutcome α) :
    (∀ a, attempt 0 = .ok a → execute_with_retry attempt = ([], .ok a)) ∧
    (attempt 0 = .failure → execute_with_retry attempt = ([], .failureRaised)) ∧
    (∀ a, attempt 0 = .locked → attempt 1 = .ok a →
      execute_with_retry attempt = ([2], .ok a)) ∧
    (attempt 0 = .locked → attempt 1 = .failure →
      execute_with_retry attempt = ([2], .failureRaised)) ∧
    (∀ a, attempt 0 = .locked → attempt 1 = .locked → attempt 2 = .ok a →
      execute_with_retry attempt = ([2, 4], .ok a)) ∧
    (attempt 0 = .locked → attempt 1 = .locked → attempt 2 = .failure →
      execute_with_retry attempt = ([2, 4], .failureRaised)) ∧
    (attempt 0 = .locked → attempt 1 = .locked → attempt 2 = .locked →
      execute_with_retry attempt = ([2, 4], .lockedRaised)) := by
  refine ⟨?_, ?_, ?_, ?_, ?_, ?_, ?_⟩
  · intro a h0
    simp [execute_with_retry, retry_loop, h0]
  · intro h0
    simp [execute_with_retry, retry_loop, h0]
  · intro a h0 h1
    simp [execute_with_retry, retry_loop, h0, h1]
  · intro h0 h1
    simp [execute_with_retry, retry_loop, h0, h1]
  · intro a h0 h1 h2
    simp [execute_with_retry, retry_loop, h0, h1, h2]
  · intro h0 h1 h2
    simp [execute_with_retry, retry_loop, h0, h1, h2]
  · intro h0 h1 h2
    simp [execute_with_retry, retry_loop, h0, h1, h2]

theorem C6_retry_behaviour_witness :
    (fun n => if n = 0 then (DbOutcome.locked : DbOutcome Nat) else .ok 5) 0 =
      .locked ∧
    (fun n => if n = 0 then (DbOutcome.locked : DbOutcome Nat) else .ok 5) 1 =
      .ok 5 ∧
    execute_with_retry
        (fun n => if n = 0 then (DbOutcome.locked : DbOutcome Nat) else .ok 5) =
      ([2], .ok 5) :=
  ⟨rfl, rfl,
    (C6_retry_behaviour
      (fun n => if n = 0 then (DbOutcome.locked : DbOutcome Nat) else .ok 5)).2.2.1
      5 rfl rfl⟩

/-- Summary dictionary returned by clear_all_users_old_history. -/
structure SweepResult where
  total_users : Nat
  total_deleted : Nat
  errors : Nat
deriving Repr, DecidableEq

/-- SELECT DISTINCT user_id FROM food_analyses, modelled with dedup
(one occurrence per id; the order is irrelevant to the claims). -/
def distinct_user_ids (table : List FoodRow) : List Int :=
  (table.map (fun r => r.user_id)).dedup

/-- The per-user COUNT/DELETE predicate of clear_all_users_old_history:
rows of the user strictly older than the cutoff. -/
def user_old (uid cutoff : Int) (r : FoodRow) : Bool :=
  r.user_id == uid && decide (r.created_at < cutoff)

/-- One iteration of the per-user loop of clear_all_users_old_history: a
failing user only increments the error counter; otherwise the user's old
rows are counted and deleted. -/
def sweep_step (userFails : Int → Bool) (cutoff : Int)
    (acc : List FoodRow × Nat × Nat) (uid : Int) : List FoodRow × Nat × Nat :=
  if userFails uid then (acc.1, acc.2.1, acc.2.2 + 1)
  else (acc.1.filter (fun r => !(user_old uid cutoff r)),
        acc.2.1 + (acc.1.filter (user_old uid cutoff)).length,
        acc.2.2)

/-- Embedding of SubscriptionDB.clear_all_users_old_history
(subscription_db.py, lines 621-698): cutoff = now - hours; topFail models
the outer except branch (the table is untouched and the summary is zeros
with one error); userFails models the per-user except branch, which
increments the error count and moves on to the next user. -/
def clear_all_users_old_history (topFail : Bool) (userFails : Int → Bool)
    (table : List FoodRow) (hours now : Int) : List FoodRow × SweepResult :=
  if topFail then
    (table, { total_users := 0, total_deleted := 0, errors := 1 })
  else
    let cutoff := now - hours * hourS
    let users := distinct_user_ids table
    let r := users.foldl (sweep_step userFails cutoff) (table, 0, 0)
    (r.1, { total_users := users.length, total_deleted := r.2.1, errors := r.2.2 })

theorem sweep_foldl_spec (userFails : Int → Bool) (cutoff : Int) (us : List Int)
    (hnd : us.Nodup) (t : List FoodRow) (d e : Nat) :
    (us.foldl (sweep_step userFails cutoff) (t, d, e)).1 =
      t.filter (fun r => !(decide (r.user_id ∈ us) && !(userFails r.user_id) &&
        decide (r.created_at < cutoff))) ∧
    (us.foldl (sweep_step userFails cutoff) (t, d, e)).2.1 +
      (us.foldl (sweep_step userFails cutoff) (t, d, e)).1.length = d + t.length ∧
    (us.foldl (sweep_step userFails cutoff) (t, d, e)).2.2 =
      e + (us.filter userFails).length := by
  induction us generalizing t d e with
  | nil =>
      refine ⟨by simp, by simp, by simp⟩
  | cons u us ih =>
      have hnd' : us.Nodup := (List.nodup_cons.mp hnd).2
      have hu_not : u ∉ us := (List.nodup_cons.mp hnd).1
      rw [List.foldl_cons]
      by_cases hf : userFails u = true
      · have hstep : sweep_step userFails cutoff (t, d, e) u = (t, d, e + 1) := by
          unfold sweep_step
          rw [hf]
          rfl
        rw [hstep]
        obtain ⟨hA, hB, hC⟩ := ih hnd' t d (e + 1)
        refine ⟨?_, hB, ?_⟩
        · rw [hA]
          apply List.filter_congr
          intro r hr
          by_cases hru : r.user_id = u
          · have h1 : decide (r.user_id ∈ us) = false := by
              rw [decide_eq_false_iff_not, hru]
              exact hu_not
            have h2 : (userFails r.user_id) = true := by rw [hru]; exact hf
            simp [h1, h2]
          · have h3 : decide (r.user_id ∈ u :: us) = decide (r.user_id ∈ us) := by
              rw [decide_eq_decide]
              simp [List.mem_cons, hru]
            rw [h3]
        · rw [hC, List.filter_cons, if_pos hf]
          simp only [List.length_cons]
          omega
      · have hf' : userFails u = false := by simpa using hf
        have hstep : sweep_step userFails cutoff (t, d, e) u =
            (t.filter (fun r => !(user_old u cutoff r)),
             d + (t.filter (user_old u cutoff)).length, e) := by
          unfold sweep_step
          rw [hf']
          rfl
        rw [hstep]
        obtain ⟨hA, hB, hC⟩ := ih hnd'
          (t.filter (fun r => !(user_old u cutoff r)))
          (d + (t.filter (user_old u cutoff)).length) e
        refine ⟨?_, ?_, ?_⟩
        · rw [hA, List.filter_filter]
          apply List.filter_congr
          intro r hr
          unfold user_old
          by_cases hru : r.user_id = u
          · have h1 : decide (r.user_id ∈ us) = false := by
              rw [decide_eq_false_iff_not, hru]
              exact hu_not
            have h2 : (userFails r.user_id) = false := by rw [hru]; exact hf'
            have hbe : (r.user_id == u) = true := by simpa using hru
            have h4 : decide (r.user_id ∈ u :: us) = true := by
              rw [decide_eq_true_eq, hru]
              exact List.mem_cons_self u us
            cases ho : decide (r.created_at < cutoff) <;>
              simp [h1, h2, hbe, h4, ho, hru, hf']
          · have h3 : decide (r.user_id ∈ u :: us) = decide (r.user_id ∈ us) := by
              rw [decide_eq_decide]
              simp [List.mem_cons, hru]
            have hbe : (r.user_id == u) = false := by simpa using hru
            rw [h3, hbe]
            cases hm : decide (r.user_id ∈ us) <;>
              cases ho : decide (r.created_at < cutoff) <;>
                simp [hm, ho]
        · rw [hB]
          have hcomp := length_filter_add_length_filter_not (user_old u cutoff) t
          omega
        · rw [hC, List.filter_cons, if_neg (by rw [hf']; exact Bool.false_ne_true)]

/-- C9: the sweep iterates over every distinct user id, deletes exactly
that user's rows older than now - hours, and returns the summary
(total_users, total_deleted, errors); a per-user failure increments the
error count without aborting the sweep for the remaining users (their old
rows are removed and the failing user's rows all survive), and a
top-level failure still yields a summary with one error and an untouched
table instead of raising. -/
theorem C9_sweep_fault_isolation (topFail : Bool) (userFails : Int → Bool)
    (table : List FoodRow) (hours now : Int) :
    (topFail = true →
      clear_all_users_old_history topFail userFails table hours now =
        (table, { total_users := 0, total_deleted := 0, errors := 1 })) ∧
    (topFail = false →
      (clear_all_users_old_history topFail userFails table hours now).2.total_users =
          (distinct_user_ids table).length ∧
      (clear_all_users_old_history topFail userFails table hours now).2.errors =
          ((distinct_user_ids table).filter userFails).length ∧
      (clear_all_users_old_history topFail userFails table hours now).1 =
          table.filter (fun r => userFails r.user_id ||
            !(decide (r.created_at < now - hours * hourS))) ∧
      (clear_all_users_old_history topFail userFails table hours now).2.total_deleted =
          (table.filter (fun r => !(userFails r.user_id) &&
            decide (r.created_at < now - hours * hourS))).length ∧
      (∀ r ∈ table, userFails r.user_id = true →
        r ∈ (clear_all_users_old_history topFail userFails table hours now).1)) := by
  constructor
  · intro h
    subst h
    rfl
  · intro h
    subst h
    have hunfold : clear_all_users_old_history false userFails table hours now =
        ((List.foldl (sweep_step userFails (now - hours * hourS)) (table, 0, 0)
            (distinct_user_ids table)).1,
         { total_users := (distinct_user_ids table).length,
           total_deleted := (List.foldl (sweep_step userFails (now - hours * hourS))
              (table, 0, 0) (distinct_user_ids table)).2.1,
           errors := (List.foldl (sweep_step userFails (now - hours * hourS))
              (table, 0, 0) (distinct_user_ids table)).2.2 }) := rfl
    rw [hunfold]
    obtain ⟨hA, hB, hC⟩ := sweep_foldl_spec userFails (now - hours * hourS)
      (distinct_user_ids table) (List.nodup_dedup _) table 0 0
    have hmem : ∀ r ∈ table, decide (r.user_id ∈ distinct_user_ids table) = true := by
      intro r hr
      rw [decide_eq_true_eq]
      unfold distinct_user_ids
      rw [List.mem_dedup]
      exact List.mem_map_of_mem _ hr
    have hfinal : (List.foldl (sweep_step userFails (now - hours * hourS))
        (table, 0, 0) (distinct_user_ids table)).1 =
        table.filter (fun r => userFails r.user_id ||
          !(decide (r.created_at < now - hours * hourS))) := by
      rw [hA]
      apply List.filter_congr
      intro r hr
      rw [hmem r hr]
      cases hfr : userFails r.user_id <;>
        cases ho : decide (r.created_at < now - hours * hourS) <;> simp [hfr, ho]
    refine ⟨rfl, ?_, ?_, ?_, ?_⟩
    · show (List.foldl (sweep_step userFails (now - hours * hourS)) (table, 0, 0)
          (distinct_user_ids table)).2.2 = ((distinct_user_ids table).filter userFails).length
      simpa using hC
    · exact hfinal
    · have hcomp := length_filter_add_length_filter_not
        (fun r => !(userFails r.user_id) &&
          decide (r.created_at < now - hours * hourS)) table
      have hkeep : table.filter (fun r => !(!(userFails r.user_id) &&
          decide (r.created_at < now - hours * hourS))) =
          table.filter (fun r => userFails r.user_id ||
            !(decide (r.created_at < now - hours * hourS))) := by
        apply List.filter_congr
        intro r hr
        cases hfr : userFails r.user_id <;>
          cases ho : decide (r.created_at < now - hours * hourS) <;> simp [hfr, ho]
      rw [hkeep] at hcomp
      have hlen : (List.foldl (sweep_step userFails (now - hours * hourS))
          (table, 0, 0) (distinct_user_ids table)).1.length =
          (table.filter (fun r => userFails r.user_id ||
            !(decide (r.created_at < now - hours * hourS)))).length := by
        rw [hfinal]
      show (List.foldl (sweep_step userFails (now - hours * hourS)) (table, 0, 0)
          (distinct_user_ids table)).2.1 =
        (table.filter (fun r => !(userFails r.user_id) &&
          decide (r.created_at < now - hours * hourS))).length
      omega
    · intro r hr hfr
      show r ∈ (List.foldl (sweep_step userFails (now - hours * hourS)) (table, 0, 0)
        (distinct_user_ids table)).1
      rw [hfinal, List.mem_filter]
      exact ⟨hr, by simp [hfr]⟩

/-- A single old row used to instantiate the sweep theorem. -/
def c9_row : FoodRow :=
  { id := 1, user_id := 7, analysis_text := "t", dish_name := "Суп",
    dish_weight := 300, calories := 300, protein := 10, fat := 5, carbs := 20,
    water_ml := 0, created_at := 0 }

theorem C9_sweep_fault_isolation_witness :
    (false = false) ∧
    (clear_all_users_old_history false (fun _ => false) [c9_row] 1 200000).2.total_deleted =
      ([c9_row].filter (fun r => !((fun _ => false) r.user_id) &&
        decide (r.created_at < 200000 - 1 * hourS))).length ∧
    (clear_all_users_old_history false (fun _ => false) [c9_row] 1 200000).2.total_deleted
      = 1 :=
  ⟨rfl,
    ((C9_sweep_fault_isolation false (fun _ => false) [c9_row] 1 200000).2 rfl).2.2.2.1,
    by decide⟩

theorem C7_revoke_unconditional_witness :
    ({ user_id := 8, start_date := 0, end_date := 10, created_at := 0,
       updated_at := 0 } : SubRow) ∈
      (revoke_subscription false
        [{ user_id := 8, start_date := 0, end_date := 10, created_at := 0,
           updated_at := 0 }] 7).1 :=
  (C7_revoke_unconditional
      [{ user_id := 8, start_date := 0, end_date := 10, created_at := 0,
         updated_at := 0 }] 7).2.2.1
    { user_id := 8, start_date := 0, end_date := 10, created_at := 0,
      updated_at := 0 }
    (by simp) (by decide)
